import Mathlib

/-
Verification of spotify-episodes-remover (src/remove.py).

Shallow-embedding conventions:

* A Python naive `datetime` is an integer count of seconds since
  0001-01-01 00:00:00 (the smallest `datetime`).  A timezone is a fixed
  UTC offset in seconds (pytz zone objects, restricted to a fixed offset;
  the examples in the documentation all use fixed offsets such as UTC-8).
  `tz.localize d` turns wall-clock `d` in zone `tz` into the aware instant
  (seconds in UTC); `pytz.utc.localize` keeps the number; `astimezone`
  changes only the displayed zone, never the instant.  Python compares
  aware datetimes by instant, so comparisons are on these integers.
* `datetime.strptime` is modelled by `strptime_Ymd` and `strptime_iso`,
  following the regular expressions CPython's `_strptime` module builds
  for the two format strings that appear in the source, '%Y-%m-%d' and
  '%Y-%m-%dT%H:%M:%SZ' (`\d\d\d\d` for %Y, `1[0-2]|0[1-9]|[1-9]` for %m,
  `3[01]|[12]\d|0[1-9]|[1-9]| [1-9]` for %d, `2[0-3]|[0-1]\d|\d` for %H,
  `[0-5]\d|\d` for %M, `6[0-1]|[0-5]\d|\d` for %S, compiled with
  IGNORECASE, whole string consumed) plus the range checks of the
  `datetime` constructor.  A raised `ValueError` is `none`.
* HTTP traffic is an oracle supplied as an argument: the sequence of page
  responses the episodes endpoint would return, and the status code the
  DELETE endpoint would return for each episode id.
* A Python function that can raise is modelled with `Except` or an
  explicit result type; `remove_episodes_based_on_filter` additionally
  records the `UnboundLocalError` that line 116 of the source can raise
  when `episodes_to_remove` was never assigned.
-/

/-! ## Dates and times -/

/-- Result of `datetime.strptime(s, '%Y-%m-%d')`: a calendar date. -/
structure Date where
  year : Nat
  month : Nat
  day : Nat
deriving DecidableEq

/-- Result of `datetime.strptime(s, '%Y-%m-%dT%H:%M:%SZ')`. -/
structure DateTime where
  year : Nat
  month : Nat
  day : Nat
  hour : Nat
  minute : Nat
  second : Nat
deriving DecidableEq

/-- Gregorian leap-year rule, as in Python's `calendar.isleap`. -/
def isLeapYear (y : Nat) : Bool :=
  (y % 4 == 0 && y % 100 != 0) || y % 400 == 0

/-- Length of month `m` of year `y` (the `datetime` constructor's bound). -/
def daysInMonth (y m : Nat) : Nat :=
  if m = 2 then (if isLeapYear y then 29 else 28)
  else if m = 4 ∨ m = 6 ∨ m = 9 ∨ m = 11 then 30
  else 31

/-- Days in year `y` strictly before month `m`. -/
def daysBeforeMonth (y m : Nat) : Nat :=
  ((List.range (m - 1)).map (fun i => daysInMonth y (i + 1))).sum

/-- Days from 0001-01-01 to the given date (proleptic Gregorian). -/
def daysFromMin (d : Date) : Nat :=
  365 * (d.year - 1) + (d.year - 1) / 4 - (d.year - 1) / 100 + (d.year - 1) / 400
    + daysBeforeMonth d.year d.month + (d.day - 1)

/-- Naive timestamp (seconds since 0001-01-01 00:00:00) of midnight of `d`. -/
def dateToSec (d : Date) : Int :=
  (daysFromMin d : Int) * 86400

/-- Naive timestamp (seconds since 0001-01-01 00:00:00) of `t`. -/
def dateTimeToSec (t : DateTime) : Int :=
  (daysFromMin ⟨t.year, t.month, t.day⟩ : Int) * 86400
    + (t.hour : Int) * 3600 + (t.minute : Int) * 60 + (t.second : Int)

/-! ## strptime -/

/-- Numeric value of a decimal digit character. -/
def digitVal (c : Char) : Nat := c.toNat - '0'.toNat

/-- Literal character in a strptime format (CPython compiles the pattern
with IGNORECASE, so letters match either case). -/
def expectChar (c : Char) : List Char → Option (List Char)
  | a :: rest => if a.toLower = c.toLower then some rest else none
  | [] => none

/-- `%Y` directive: regex `\d\d\d\d`. -/
def parseYear4 : List Char → Option (Nat × List Char)
  | a :: b :: c :: d :: rest =>
    if a.isDigit && b.isDigit && c.isDigit && d.isDigit then
      some (digitVal a * 1000 + digitVal b * 100 + digitVal c * 10 + digitVal d, rest)
    else none
  | _ => none

/-- `%m` directive: regex `1[0-2]|0[1-9]|[1-9]`. -/
def parseMonth : List Char → Option (Nat × List Char)
  | [] => none
  | a :: rest =>
    if a = '1' then
      match rest with
      | b :: rest2 => if '0' ≤ b ∧ b ≤ '2' then some (10 + digitVal b, rest2) else some (1, rest)
      | [] => some (1, [])
    else if a = '0' then
      match rest with
      | b :: rest2 => if '1' ≤ b ∧ b ≤ '9' then some (digitVal b, rest2) else none
      | [] => none
    else if '2' ≤ a ∧ a ≤ '9' then some (digitVal a, rest)
    else none

/-- `%d` directive: regex `3[01]|[12]\d|0[1-9]|[1-9]| [1-9]`. -/
def parseDay : List Char → Option (Nat × List Char)
  | [] => none
  | a :: rest =>
    if a = '3' then
      match rest with
      | b :: rest2 => if b = '0' ∨ b = '1' then some (30 + digitVal b, rest2) else some (3, rest)
      | [] => some (3, [])
    else if a = '1' ∨ a = '2' then
      match rest with
      | b :: rest2 =>
        if b.isDigit then some (digitVal a * 10 + digitVal b, rest2) else some (digitVal a, rest)
      | [] => some (digitVal a, [])
    else if '4' ≤ a ∧ a ≤ '9' then some (digitVal a, rest)
    else if a = '0' ∨ a = ' ' then
      match rest with
      | b :: rest2 => if '1' ≤ b ∧ b ≤ '9' then some (digitVal b, rest2) else none
      | [] => none
    else none

/-- `%H` directive: regex `2[0-3]|[0-1]\d|\d`. -/
def parseHour : List Char → Option (Nat × List Char)
  | [] => none
  | a :: rest =>
    if a = '2' then
      match rest with
      | b :: rest2 => if '0' ≤ b ∧ b ≤ '3' then some (20 + digitVal b, rest2) else some (2, rest)
      | [] => some (2, [])
    else if a = '0' ∨ a = '1' then
      match rest with
      | b :: rest2 =>
        if b.isDigit then some (digitVal a * 10 + digitVal b, rest2) else some (digitVal a, rest)
      | [] => some (digitVal a, [])
    else if a.isDigit then some (digitVal a, rest)
    else none

/-- `%M` directive: regex `[0-5]\d|\d`. -/
def parseMinute : List Char → Option (Nat × List Char)
  | [] => none
  | a :: rest =>
    if '0' ≤ a ∧ a ≤ '5' then
      match rest with
      | b :: rest2 =>
        if b.isDigit then some (digitVal a * 10 + digitVal b, rest2) else some (digitVal a, rest)
      | [] => some (digitVal a, [])
    else if a.isDigit then some (digitVal a, rest)
    else none

/-- `%S` directive: regex `6[0-1]|[0-5]\d|\d`. -/
def parseSecond : List Char → Option (Nat × List Char)
  | [] => none
  | a :: rest =>
    if a = '6' then
      match rest with
      | b :: rest2 => if b = '0' ∨ b = '1' then some (60 + digitVal b, rest2) else some (6, rest)
      | [] => some (6, [])
    else if '0' ≤ a ∧ a ≤ '5' then
      match rest with
      | b :: rest2 =>
        if b.isDigit then some (digitVal a * 10 + digitVal b, rest2) else some (digitVal a, rest)
      | [] => some (digitVal a, [])
    else if a.isDigit then some (digitVal a, rest)
    else none

/-- `datetime.strptime(s, '%Y-%m-%d')` (line 66 and line 87 of the source).
The whole string must be consumed, and the `datetime` constructor requires
`MINYEAR ≤ year` and a day that exists in the month. -/
def strptime_Ymd (s : String) : Option Date := do
  let (y, r1) ← parseYear4 s.data
  let r2 ← expectChar '-' r1
  let (m, r3) ← parseMonth r2
  let r4 ← expectChar '-' r3
  let (d, r5) ← parseDay r4
  if r5 = [] ∧ 1 ≤ y ∧ d ≤ daysInMonth y m then some ⟨y, m, d⟩ else none

/-- `datetime.strptime(s, '%Y-%m-%dT%H:%M:%SZ')` (line 84 of the source).
The `%S` regex admits leap seconds 60 and 61, which the `datetime`
constructor then rejects. -/
def strptime_iso (s : String) : Option DateTime := do
  let (y, r1) ← parseYear4 s.data
  let r2 ← expectChar '-' r1
  let (m, r3) ← parseMonth r2
  let r4 ← expectChar '-' r3
  let (d, r5) ← parseDay r4
  let r6 ← expectChar 'T' r5
  let (hh, r7) ← parseHour r6
  let r8 ← expectChar ':' r7
  let (mi, r9) ← parseMinute r8
  let r10 ← expectChar ':' r9
  let (ss, r11) ← parseSecond r10
  let r12 ← expectChar 'Z' r11
  if r12 = [] ∧ 1 ≤ y ∧ d ≤ daysInMonth y m ∧ ss ≤ 59 then
    some ⟨y, m, d, hh, mi, ss⟩
  else none

/-! ## Timezones -/

/-- A pytz timezone, restricted to a fixed UTC offset in seconds
(positive = east of UTC). -/
structure Timezone where
  offset : Int
deriving DecidableEq

/-- `tz.localize(naive)`: the aware instant (UTC seconds) whose wall clock
in `tz` reads `naive`. -/
def Timezone.localize (tz : Timezone) (naive : Int) : Int :=
  naive - tz.offset

/-- `pytz.utc.localize(naive)`: interpret a naive datetime as UTC. -/
def utc_localize (naive : Int) : Int := naive

/-- `aware.astimezone(tz)`: changes the display zone only; the instant,
which is what aware-datetime comparison uses, is unchanged. -/
def astimezone (instant : Int) (_tz : Timezone) : Int := instant

/-! ## Data model -/

/-- The show object nested in a saved-episode item: `name`, `publisher`. -/
structure PodShow where
  name : String
  publisher : String
deriving DecidableEq

/-- The episode object: `id`, `name`, `release_date`, `show`. -/
structure Episode where
  id : String
  name : String
  release_date : String
  «show» : PodShow
deriving DecidableEq

/-- A saved-episode item as returned by the list endpoint: `added_at`
timestamp plus the episode object. -/
structure SavedEpisode where
  added_at : String
  episode : Episode
deriving DecidableEq

/-- The `date_type` selector offered by the prompt (line 166). -/
inductive DateType where
  | dateAddedToLibrary
  | podcastReleaseDate
deriving DecidableEq

/-! ## Pagination (`get_saved_episodes`, lines 32-49) -/

/-- One response of the episodes endpoint: HTTP status, the `items`
array, and whether the `next` field is non-null. -/
structure Page where
  status : Nat
  items : List SavedEpisode
  next : Bool
deriving DecidableEq

/-- Lines 37-49: follow `next` links, extending the accumulator, until
`next` is null; on a non-200 response, break and return what was
accumulated. The argument is the sequence of responses the server gives. -/
def get_saved_episodes : List Page → List SavedEpisode
  | [] => []
  | page :: rest =>
    if page.status = 200 then
      page.items ++ (if page.next then get_saved_episodes rest else [])
    else []

/-! ## `get_unique_authors` (lines 51-55) -/

/-- Lines 51-55: `sorted({ep['episode']['show']['publisher'] for ep in episodes})`. -/
def get_unique_authors (episodes : List SavedEpisode) : List String :=
  List.insertionSort (· ≤ ·)
    ((episodes.map (fun ep => ep.episode.«show».publisher)).dedup)

/-! ## `remove_saved_episode` (lines 57-63) -/

/-- Lines 57-63: one DELETE call; returns the status code. `delete_status`
is the oracle for what the endpoint answers for each episode id. -/
def remove_saved_episode (delete_status : String → Nat) (episode_id : String) : Nat :=
  delete_status episode_id

/-! ## `remove_episodes_by_date` (lines 65-98) -/

/-- Lines 83-88: resolve the comparison date of one episode according to
the selector, as a naive timestamp; `none` is a raised `ValueError`. -/
def parse_episode_date (date_type : DateType) (ep : SavedEpisode) : Option Int :=
  match date_type with
  | .dateAddedToLibrary => (strptime_iso ep.added_at).map dateTimeToSec
  | .podcastReleaseDate => (strptime_Ymd ep.episode.release_date).map dateToSec

/-- Lines 74-94: the filtering loop. Skips episodes whose publisher is not
selected; parses the selected date field (a parse failure raises); keeps
the episode when the UTC-localized, timezone-converted date is strictly
before the localized cutoff. -/
def filterEpisodes (date_type : DateType) (before_date_obj : Int) (local_tz : Timezone)
    (selected_authors : List String) : List SavedEpisode → Except String (List SavedEpisode)
  | [] => .ok []
  | ep :: rest =>
    if ep.episode.«show».publisher ∈ selected_authors then
      match parse_episode_date date_type ep with
      | none => .error "ValueError: time data does not match format"
      | some naive =>
        let episode_date := astimezone (utc_localize naive) local_tz
        if episode_date < before_date_obj then
          match filterEpisodes date_type before_date_obj local_tz selected_authors rest with
          | .error e => .error e
          | .ok l => .ok (ep :: l)
        else filterEpisodes date_type before_date_obj local_tz selected_authors rest
    else filterEpisodes date_type before_date_obj local_tz selected_authors rest

/-- Lines 65-98: parse the cutoff (line 66; a malformed string raises
before anything else), localize it in the chosen timezone (line 67),
return `[]` when no author is selected (lines 70-72), else run the loop. -/
def remove_episodes_by_date (episodes : List SavedEpisode) (date_type : DateType)
    (before_date : String) (local_tz : Timezone) (selected_authors : List String) :
    Except String (List SavedEpisode) :=
  match strptime_Ymd before_date with
  | none => .error "ValueError: time data does not match format %Y-%m-%d"
  | some d =>
    let before_date_obj := local_tz.localize (dateToSec d)
    if selected_authors.isEmpty then .ok []
    else filterEpisodes date_type before_date_obj local_tz selected_authors episodes

/-! ## Orchestrator (`remove_episodes_based_on_filter`, lines 100-123) -/

/-- Outcome of one run of `remove_episodes_based_on_filter`: the early
returns, the exceptions it can raise, or normal completion together with
the per-episode deletion log (episode id, whether the DELETE returned 200). -/
inductive RunResult where
  | abortedNoToken
  | abortedNoEpisodes
  | raisedValueError (msg : String)
  | raisedUnboundLocalError
  | completed (deletion_log : List (String × Bool))
deriving DecidableEq

/-- Lines 117-123: the deletion loop; one DELETE per selected episode, in
order, logging success exactly when the status is 200 and continuing
regardless of failures. -/
def run_removals (delete_status : String → Nat) : List SavedEpisode → List (String × Bool)
  | [] => []
  | ep :: rest =>
    (ep.episode.id, remove_saved_episode delete_status ep.episode.id == 200)
      :: run_removals delete_status rest

/-- Python truthiness of the `before_date` argument (`None` and the empty
string are falsy). -/
def pyTruthy : Option String → Bool
  | none => false
  | some s => s != ""

/-- Lines 100-123. `token_response` is the oracle for `get_access_token`,
`pages` for the episodes endpoint, `delete_status` for the DELETE endpoint.
When `before_date` is falsy, line 113 never assigns `episodes_to_remove`,
so evaluating it at line 116 (reached only when `not test_mode` is true,
since `and` short-circuits) raises `UnboundLocalError`. -/
def remove_episodes_based_on_filter (token_response : Option String) (pages : List Page)
    (delete_status : String → Nat) (test_mode : Bool) (date_type : DateType)
    (before_date : Option String) (local_tz : Timezone) (selected_authors : List String) :
    RunResult :=
  match token_response with
  | none => .abortedNoToken
  | some _ =>
    let episodes := get_saved_episodes pages
    if episodes.isEmpty then .abortedNoEpisodes
    else if pyTruthy before_date then
      match remove_episodes_by_date episodes date_type (before_date.getD "") local_tz
          selected_authors with
      | .error e => .raisedValueError e
      | .ok episodes_to_remove =>
        if !test_mode && !episodes_to_remove.isEmpty then
          .completed (run_removals delete_status episodes_to_remove)
        else .completed []
    else if !test_mode then .raisedUnboundLocalError
    else .completed []

/-! ## Sample data for concrete instantiations -/

/-- A show with publisher "PubA". -/
def showA : PodShow := ⟨"ShowA", "PubA"⟩

/-- A show with publisher "PubB". -/
def showB : PodShow := ⟨"ShowB", "PubB"⟩

/-- Added at 2023-01-01T00:00:00Z, publisher "PubA". -/
def sampleEp1 : SavedEpisode := ⟨"2023-01-01T00:00:00Z", ⟨"id1", "Ep1", "2023-01-01", showA⟩⟩

/-- Added at 2023-06-15T12:00:00Z, publisher "PubA". -/
def sampleEp2 : SavedEpisode := ⟨"2023-06-15T12:00:00Z", ⟨"id2", "Ep2", "2023-06-15", showA⟩⟩

/-- Added at 2022-01-01T00:00:00Z, publisher "PubB". -/
def sampleEp3 : SavedEpisode := ⟨"2022-01-01T00:00:00Z", ⟨"id3", "Ep3", "2021-12-31", showB⟩⟩

/-- Release date 2023-01-01, publisher "PubA". -/
def sampleRel : SavedEpisode := ⟨"2023-06-01T00:00:00Z", ⟨"id4", "Rel1", "2023-01-01", showA⟩⟩

/-- America/Los_Angeles at the documented PST offset, UTC-8. -/
def losAngeles : Timezone := ⟨-28800⟩

/-- First page of a three-page pagination example. -/
def samplePage1 : Page := ⟨200, [sampleEp1, sampleEp2], true⟩

/-- Second page, failing with HTTP 500. -/
def samplePage2 : Page := ⟨500, [sampleEp3], true⟩

/-- Third page, last one. -/
def samplePage3 : Page := ⟨200, [sampleEp3], false⟩

/-- Old episode (passes a 2023-01-01 cutoff), id "idA". -/
def sampleDel1 : SavedEpisode := ⟨"2022-01-01T00:00:00Z", ⟨"idA", "D1", "2021-12-30", showA⟩⟩

/-- Old episode, id "idB". -/
def sampleDel2 : SavedEpisode := ⟨"2022-01-02T00:00:00Z", ⟨"idB", "D2", "2021-12-30", showA⟩⟩

/-- Old episode, id "idC". -/
def sampleDel3 : SavedEpisode := ⟨"2022-01-03T00:00:00Z", ⟨"idC", "D3", "2021-12-30", showA⟩⟩

/-- A single page holding the three old episodes. -/
def sampleDeletePages : List Page := [⟨200, [sampleDel1, sampleDel2, sampleDel3], false⟩]

/-- DELETE endpoint oracle that fails exactly for episode "idB". -/
def sampleDeleteStatus : String → Nat :=
  fun episode_id => if episode_id = "idB" then 403 else 200

/-! ## Helper lemmas about the filter loop -/

/-- Membership in a successful run of the filter loop: exactly the input
episodes whose publisher is selected and whose resolved date parses to a
timestamp strictly before the localized cutoff. -/
theorem filterEpisodes_mem_iff (date_type : DateType) (before_date_obj : Int)
    (local_tz : Timezone) (selected_authors : List String) (l : List SavedEpisode) :
    ∀ out, filterEpisodes date_type before_date_obj local_tz selected_authors l = .ok out →
      ∀ ep, (ep ∈ out ↔ ep ∈ l ∧ ep.episode.«show».publisher ∈ selected_authors ∧
        ∃ n, parse_episode_date date_type ep = some n ∧ n < before_date_obj) := by
  induction l with
  | nil =>
    intro out hok ep
    simp only [filterEpisodes, Except.ok.injEq] at hok
    subst hok
    simp
  | cons e rest ih =>
    intro out hok ep
    simp only [filterEpisodes] at hok
    by_cases hpub : e.episode.«show».publisher ∈ selected_authors
    · rw [if_pos hpub] at hok
      cases hparse : parse_episode_date date_type e with
      | none =>
        rw [hparse] at hok
        exact Except.noConfusion hok
      | some n =>
        rw [hparse] at hok
        simp only [astimezone, utc_localize] at hok
        by_cases hlt : n < before_date_obj
        · rw [if_pos hlt] at hok
          cases hrec : filterEpisodes date_type before_date_obj local_tz selected_authors rest with
          | error msg =>
            rw [hrec] at hok
            exact Except.noConfusion hok
          | ok l2 =>
            rw [hrec] at hok
            simp only [Except.ok.injEq] at hok
            subst hok
            constructor
            · intro hm
              rcases List.mem_cons.mp hm with h | h
              · subst h
                exact ⟨List.mem_cons_self _ _, hpub, n, hparse, hlt⟩
              · obtain ⟨h1, h2, h3⟩ := (ih l2 hrec ep).mp h
                exact ⟨List.mem_cons_of_mem _ h1, h2, h3⟩
            · rintro ⟨hm, hp, n2, hp2, hl2⟩
              rcases List.mem_cons.mp hm with h | h
              · subst h
                exact List.mem_cons_self _ _
              · exact List.mem_cons_of_mem _ ((ih l2 hrec ep).mpr ⟨h, hp, n2, hp2, hl2⟩)
        · rw [if_neg hlt] at hok
          rw [ih out hok ep]
          constructor
          · rintro ⟨hm, hp, n2, hp2, hl2⟩
            exact ⟨List.mem_cons_of_mem _ hm, hp, n2, hp2, hl2⟩
          · rintro ⟨hm, hp, n2, hp2, hl2⟩
            rcases List.mem_cons.mp hm with h | h
            · subst h
              rw [hparse] at hp2
              simp only [Option.some.injEq] at hp2
              subst hp2
              exact absurd hl2 hlt
            · exact ⟨h, hp, n2, hp2, hl2⟩
    · rw [if_neg hpub] at hok
      rw [ih out hok ep]
      constructor
      · rintro ⟨hm, hp, n2, hp2, hl2⟩
        exact ⟨List.mem_cons_of_mem _ hm, hp, n2, hp2, hl2⟩
      · rintro ⟨hm, hp, n2, hp2, hl2⟩
        rcases List.mem_cons.mp hm with h | h
        · subst h
          exact absurd hp hpub
        · exact ⟨h, hp, n2, hp2, hl2⟩

/-- A successful run of the filter loop returns a subsequence of its
input: elements are only ever skipped or kept, never reordered. -/
theorem filterEpisodes_sublist (date_type : DateType) (before_date_obj : Int)
    (local_tz : Timezone) (selected_authors : List String) (l : List SavedEpisode) :
    ∀ out, filterEpisodes date_type before_date_obj local_tz selected_authors l = .ok out →
      out.Sublist l := by
  induction l with
  | nil =>
    intro out hok
    simp only [filterEpisodes, Except.ok.injEq] at hok
    subst hok
    exact List.Sublist.refl []
  | cons e rest ih =>
    intro out hok
    simp only [filterEpisodes] at hok
    by_cases hpub : e.episode.«show».publisher ∈ selected_authors
    · rw [if_pos hpub] at hok
      cases hparse : parse_episode_date date_type e with
      | none =>
        rw [hparse] at hok
        exact Except.noConfusion hok
      | some n =>
        rw [hparse] at hok
        simp only [astimezone, utc_localize] at hok
        by_cases hlt : n < before_date_obj
        · rw [if_pos hlt] at hok
          cases hrec : filterEpisodes date_type before_date_obj local_tz selected_authors rest with
          | error msg =>
            rw [hrec] at hok
            exact Except.noConfusion hok
          | ok l2 =>
            rw [hrec] at hok
            simp only [Except.ok.injEq] at hok
            subst hok
            exact List.Sublist.cons₂ e (ih l2 hrec)
        · rw [if_neg hlt] at hok
          exact List.Sublist.cons e (ih out hok)
    · rw [if_neg hpub] at hok
      exact List.Sublist.cons e (ih out hok)

/-- Unfolding of a successful `remove_episodes_by_date` run with a
well-formed cutoff and a nonempty author selection: membership in the
result is membership in the input plus the publisher and date criteria,
the cutoff being midnight of the cutoff date localized in `local_tz`. -/
theorem remove_episodes_by_date_ok_mem (episodes : List SavedEpisode) (date_type : DateType)
    (before_date : String) (local_tz : Timezone) (selected_authors : List String)
    (cutoff : Date) (out : List SavedEpisode)
    (hcut : strptime_Ymd before_date = some cutoff)
    (hne : selected_authors ≠ [])
    (hok : remove_episodes_by_date episodes date_type before_date local_tz selected_authors
      = .ok out) :
    ∀ ep, (ep ∈ out ↔ ep ∈ episodes ∧ ep.episode.«show».publisher ∈ selected_authors ∧
      ∃ n, parse_episode_date date_type ep = some n ∧
        n < dateToSec cutoff - local_tz.offset) := by
  have hemp : selected_authors.isEmpty = false := by
    cases selected_authors with
    | nil => exact absurd rfl hne
    | cons a l => rfl
  rw [remove_episodes_by_date, hcut] at hok
  simp only [hemp, Bool.false_eq_true, if_false, Timezone.localize] at hok
  intro ep
  exact filterEpisodes_mem_iff date_type (dateToSec cutoff - local_tz.offset) local_tz
    selected_authors episodes out hok ep

/-- A successful `remove_episodes_by_date` run returns a subsequence of
the input list. -/
theorem remove_episodes_by_date_ok_sublist (episodes : List SavedEpisode)
    (date_type : DateType) (before_date : String) (local_tz : Timezone)
    (selected_authors : List String) (out : List SavedEpisode)
    (hok : remove_episodes_by_date episodes date_type before_date local_tz selected_authors
      = .ok out) :
    out.Sublist episodes := by
  cases hcut : strptime_Ymd before_date with
  | none =>
    rw [remove_episodes_by_date, hcut] at hok
    exact Except.noConfusion hok
  | some cutoff =>
    rw [remove_episodes_by_date, hcut] at hok
    cases hemp : selected_authors.isEmpty with
    | true =>
      simp only [hemp, if_true] at hok
      simp only [Except.ok.injEq] at hok
      subst hok
      exact List.nil_sublist episodes
    | false =>
      simp only [hemp, Bool.false_eq_true, if_false] at hok
      exact filterEpisodes_sublist date_type _ local_tz selected_authors episodes out hok

/-! ## Claims -/

/-- C1: for every episode list, target timezone, and well-formed cutoff
date string, with the 'Date Added to Library' selector and an episode
whose publisher is in the accepted set, a successful
`remove_episodes_by_date` run includes the episode if and only if its
added-at timestamp, parsed as UTC and converted to the target timezone
(wall clock `dateTimeToSec t + local_tz.offset`), is strictly earlier
than midnight of the cutoff date in that timezone (`dateToSec cutoff`). -/
theorem C1_date_added_filter_iff (episodes : List SavedEpisode) (before_date : String)
    (local_tz : Timezone) (selected_authors : List String) (cutoff : Date)
    (out : List SavedEpisode) (ep : SavedEpisode) (t : DateTime)
    (hcut : strptime_Ymd before_date = some cutoff)
    (hok : remove_episodes_by_date episodes .dateAddedToLibrary before_date local_tz
      selected_authors = .ok out)
    (hmem : ep ∈ episodes)
    (hauth : ep.episode.«show».publisher ∈ selected_authors)
    (ht : strptime_iso ep.added_at = some t) :
    ep ∈ out ↔ dateTimeToSec t + local_tz.offset < dateToSec cutoff := by
  have hne : selected_authors ≠ [] := by
    intro h
    subst h
    exact absurd hauth (List.not_mem_nil _)
  rw [remove_episodes_by_date_ok_mem episodes .dateAddedToLibrary before_date local_tz
    selected_authors cutoff out hcut hne hok ep]
  constructor
  · rintro ⟨-, -, n, hn, hlt⟩
    simp only [parse_episode_date, ht, Option.map_some', Option.some.injEq] at hn
    subst hn
    omega
  · intro hlt
    refine ⟨hmem, hauth, dateTimeToSec t, ?_, by omega⟩
    simp [parse_episode_date, ht]

/-- C1 witness: the documented example: `added_at = 2023-01-01T00:00:00Z`,
cutoff `2023-01-01`, timezone America/Los_Angeles (UTC-8): the episode is
included. -/
theorem C1_witness :
    remove_episodes_by_date [sampleEp1] .dateAddedToLibrary "2023-01-01" losAngeles ["PubA"]
      = .ok [sampleEp1] ∧ sampleEp1 ∈ [sampleEp1] := by
  refine ⟨rfl, ?_⟩
  exact (C1_date_added_filter_iff [sampleEp1] "2023-01-01" losAngeles ["PubA"] ⟨2023, 1, 1⟩
    [sampleEp1] sampleEp1 ⟨2023, 1, 1, 0, 0, 0⟩ (by decide) rfl (by decide) (by decide)
    (by decide)).mpr (by decide)

/-- C2: a successful `remove_episodes_by_date` run returns a subset of its
input, and every returned episode has its publisher in the accepted set
and its resolved, timezone-converted date strictly earlier than the cutoff
midnight in the chosen timezone. -/
theorem C2_filter_subset_and_criteria (episodes : List SavedEpisode) (date_type : DateType)
    (before_date : String) (local_tz : Timezone) (selected_authors : List String)
    (out : List SavedEpisode)
    (hok : remove_episodes_by_date episodes date_type before_date local_tz selected_authors
      = .ok out) :
    out ⊆ episodes ∧ ∀ ep ∈ out,
      ep.episode.«show».publisher ∈ selected_authors ∧
      ∃ cutoff n, strptime_Ymd before_date = some cutoff ∧
        parse_episode_date date_type ep = some n ∧
        n + local_tz.offset < dateToSec cutoff := by
  refine ⟨(remove_episodes_by_date_ok_sublist episodes date_type before_date local_tz
    selected_authors out hok).subset, ?_⟩
  intro ep hep
  cases hcut : strptime_Ymd before_date with
  | none =>
    rw [remove_episodes_by_date, hcut] at hok
    exact Except.noConfusion hok
  | some cutoff =>
    by_cases hne : selected_authors = []
    · subst hne
      rw [remove_episodes_by_date, hcut] at hok
      simp only [List.isEmpty_nil, if_true, Except.ok.injEq] at hok
      subst hok
      exact absurd hep (List.not_mem_nil _)
    · obtain ⟨-, hp, n, hn, hlt⟩ :=
        (remove_episodes_by_date_ok_mem episodes date_type before_date local_tz
          selected_authors cutoff out hcut hne hok ep).mp hep
      exact ⟨hp, cutoff, n, rfl, hn, by omega⟩

/-- C2 witness: with episodes by "PubA" (one old, one recent) and one by
"PubB", cutoff 2023-01-01 in UTC-8, only the old "PubA" episode returns,
and it satisfies the publisher and date criteria. -/
theorem C2_witness :
    [sampleEp1] ⊆ [sampleEp1, sampleEp2, sampleEp3] ∧ ∀ ep ∈ [sampleEp1],
      ep.episode.«show».publisher ∈ ["PubA"] ∧
      ∃ cutoff n, strptime_Ymd "2023-01-01" = some cutoff ∧
        parse_episode_date .dateAddedToLibrary ep = some n ∧
        n + losAngeles.offset < dateToSec cutoff :=
  C2_filter_subset_and_criteria [sampleEp1, sampleEp2, sampleEp3] .dateAddedToLibrary
    "2023-01-01" losAngeles ["PubA"] [sampleEp1] rfl

/-- C3 counterexample: the claim promises an empty RESULT for an empty
author set "regardless of the cutoff", but line 66 of the source parses
the cutoff before the author check, so a malformed cutoff raises instead
of returning the empty list. -/
theorem C3_counterexample :
    remove_episodes_by_date [] .dateAddedToLibrary "not-a-date" ⟨0⟩ [] ≠ .ok [] ∧
    remove_episodes_by_date [] .dateAddedToLibrary "not-a-date" ⟨0⟩ []
      = .error "ValueError: time data does not match format %Y-%m-%d" := by
  constructor
  · intro h
    rw [show remove_episodes_by_date [] .dateAddedToLibrary "not-a-date" ⟨0⟩ []
      = .error "ValueError: time data does not match format %Y-%m-%d" from rfl] at h
    exact Except.noConfusion h
  · rfl

/-- C3 (amended): for every episode list and every WELL-FORMED cutoff
string, an empty accepted-author set makes `remove_episodes_by_date`
return the empty result, regardless of the episodes or the cutoff value. -/
theorem C3_empty_authors_empty_result (episodes : List SavedEpisode) (date_type : DateType)
    (before_date : String) (local_tz : Timezone) (cutoff : Date)
    (hcut : strptime_Ymd before_date = some cutoff) :
    remove_episodes_by_date episodes date_type before_date local_tz [] = .ok [] := by
  rw [remove_episodes_by_date, hcut]
  simp

/-- C3 witness: empty author selection with a well-formed cutoff yields
the empty result on a nonempty episode list. -/
theorem C3_witness :
    remove_episodes_by_date [sampleEp1, sampleEp2, sampleEp3] .dateAddedToLibrary
      "2023-01-01" losAngeles [] = .ok [] :=
  C3_empty_authors_empty_result [sampleEp1, sampleEp2, sampleEp3] .dateAddedToLibrary
    "2023-01-01" losAngeles ⟨2023, 1, 1⟩ (by decide)

/-- C4: for every cutoff string that is not a well-formed YYYY-MM-DD date,
`remove_episodes_by_date` raises a parse failure (modelled as the error
result, so no episode list is returned), for every episode list and
accepted-author set, including the empty author set. -/
theorem C4_malformed_cutoff_raises (episodes : List SavedEpisode) (date_type : DateType)
    (before_date : String) (local_tz : Timezone) (selected_authors : List String)
    (hbad : strptime_Ymd before_date = none) :
    remove_episodes_by_date episodes date_type before_date local_tz selected_authors
      = .error "ValueError: time data does not match format %Y-%m-%d" := by
  rw [remove_episodes_by_date, hbad]

/-- C4 witness: month 13 does not parse, and the error is raised even with
an empty author set. -/
theorem C4_witness :
    remove_episodes_by_date [sampleEp1] .dateAddedToLibrary "2023-13-01" losAngeles []
      = .error "ValueError: time data does not match format %Y-%m-%d" :=
  C4_malformed_cutoff_raises [sampleEp1] .dateAddedToLibrary "2023-13-01" losAngeles []
    (by decide)

/-- C5: with the 'Podcast Release Date' selector, the release date is
parsed as midnight, localized as UTC and converted to the target timezone
before the comparison; consequently, in any timezone strictly west of UTC
(negative offset), an accepted episode whose release date equals the
cutoff date is included. -/
theorem C5_release_equal_cutoff_included_west (episodes : List SavedEpisode)
    (before_date : String) (local_tz : Timezone) (selected_authors : List String)
    (cutoff : Date) (out : List SavedEpisode) (ep : SavedEpisode)
    (hcut : strptime_Ymd before_date = some cutoff)
    (hrel : strptime_Ymd ep.episode.release_date = some cutoff)
    (hok : remove_episodes_by_date episodes .podcastReleaseDate before_date local_tz
      selected_authors = .ok out)
    (hmem : ep ∈ episodes)
    (hauth : ep.episode.«show».publisher ∈ selected_authors)
    (hwest : local_tz.offset < 0) :
    ep ∈ out := by
  have hne : selected_authors ≠ [] := by
    intro h
    subst h
    exact absurd hauth (List.not_mem_nil _)
  refine (remove_episodes_by_date_ok_mem episodes .podcastReleaseDate before_date local_tz
    selected_authors cutoff out hcut hne hok ep).mpr
    ⟨hmem, hauth, dateToSec cutoff, ?_, by omega⟩
  simp [parse_episode_date, hrel]

/-- C5 witness: release date 2023-01-01 with cutoff 2023-01-01 in UTC-8:
the episode is included (its converted date falls on 2022-12-31 local). -/
theorem C5_witness :
    remove_episodes_by_date [sampleRel] .podcastReleaseDate "2023-01-01" losAngeles ["PubA"]
      = .ok [sampleRel] ∧ sampleRel ∈ [sampleRel] :=
  ⟨rfl, C5_release_equal_cutoff_included_west [sampleRel] "2023-01-01" losAngeles ["PubA"]
    ⟨2023, 1, 1⟩ [sampleRel] sampleRel (by decide) (by decide) rfl (by decide) (by decide)
    (by decide)⟩

/-- C8: for every input episode list, a successful
`remove_episodes_by_date` run is a stable filter: its output is a
subsequence of the input, so the relative order of included episodes is
the input order and nothing is reordered or sorted. -/
theorem C8_stable_filter_order (episodes : List SavedEpisode) (date_type : DateType)
    (before_date : String) (local_tz : Timezone) (selected_authors : List String)
    (out : List SavedEpisode)
    (hok : remove_episodes_by_date episodes date_type before_date local_tz selected_authors
      = .ok out) :
    out.Sublist episodes :=
  remove_episodes_by_date_ok_sublist episodes date_type before_date local_tz
    selected_authors out hok

/-- C8 witness: the filtered output `[sampleEp1]` is a subsequence of the
three-episode input. -/
theorem C8_witness :
    List.Sublist [sampleEp1] [sampleEp1, sampleEp2, sampleEp3] :=
  C8_stable_filter_order [sampleEp1, sampleEp2, sampleEp3] .dateAddedToLibrary "2023-01-01"
    losAngeles ["PubA"] [sampleEp1] rfl

/-- C6: when every page before some failing page returns HTTP 200 with a
next link, and that page returns non-200, `get_saved_episodes` stops at
the failure and returns exactly the items accumulated from the earlier
pages, in order, without raising any error. -/
theorem C6_pagination_partial_result (good : List Page) (bad : Page) (rest : List Page)
    (hgood : ∀ p ∈ good, p.status = 200 ∧ p.next = true)
    (hbad : bad.status ≠ 200) :
    get_saved_episodes (good ++ bad :: rest) = (good.map Page.items).flatten := by
  induction good with
  | nil =>
    simp [get_saved_episodes, hbad]
  | cons p ps ih =>
    have hp := hgood p (List.mem_cons_self _ _)
    have hps : ∀ q ∈ ps, q.status = 200 ∧ q.next = true :=
      fun q hq => hgood q (List.mem_cons_of_mem _ hq)
    simp [get_saved_episodes, hp.1, hp.2, ih hps]

/-- C6 witness: a non-200 response on page 2 of 3 yields exactly the items
of page 1. -/
theorem C6_witness :
    get_saved_episodes [samplePage1, samplePage2, samplePage3] = [sampleEp1, sampleEp2] :=
  (C6_pagination_partial_result [samplePage1] samplePage2 [samplePage3]
    (by decide) (by decide)).trans rfl

/-- The deletion loop issues one DELETE per episode, in input order, and
records success exactly for status 200. -/
theorem run_removals_eq_map (delete_status : String → Nat) (l : List SavedEpisode) :
    run_removals delete_status l = l.map (fun ep =>
      (ep.episode.id, remove_saved_episode delete_status ep.episode.id == 200)) := by
  induction l with
  | nil => rfl
  | cons ep rest ih => simp [run_removals, ih]

/-- C7: when not in test mode, with a truthy cutoff whose filtering
succeeded and selected a nonempty list, the orchestrator attempts one
deletion call for every filtered episode, in order (the log is the map
over the filtered list), and a non-200 status for one episode never
prevents the remaining calls: the log entry is simply `false` there. -/
theorem C7_deletions_attempted_in_order (token : String) (pages : List Page)
    (delete_status : String → Nat) (date_type : DateType) (before_date : String)
    (local_tz : Timezone) (selected_authors : List String)
    (episodes_to_remove : List SavedEpisode)
    (hfilter : remove_episodes_by_date (get_saved_episodes pages) date_type before_date
      local_tz selected_authors = .ok episodes_to_remove)
    (hne : episodes_to_remove ≠ [])
    (heps : get_saved_episodes pages ≠ []) :
    remove_episodes_based_on_filter (some token) pages delete_status false date_type
        (some before_date) local_tz selected_authors
      = .completed (episodes_to_remove.map (fun ep =>
          (ep.episode.id, remove_saved_episode delete_status ep.episode.id == 200))) := by
  have hds : before_date ≠ "" := by
    intro h
    subst h
    have hnone : strptime_Ymd "" = none := rfl
    rw [remove_episodes_by_date, hnone] at hfilter
    exact Except.noConfusion hfilter
  have hemp : (get_saved_episodes pages).isEmpty = false := by
    cases h : get_saved_episodes pages with
    | nil => exact absurd h heps
    | cons a l => rfl
  have hrm : episodes_to_remove.isEmpty = false := by
    cases h : episodes_to_remove with
    | nil => exact absurd h hne
    | cons a l => rfl
  have htr : pyTruthy (some before_date) = true := by
    simp [pyTruthy, hds]
  rw [remove_episodes_based_on_filter]
  simp only [hemp, Bool.false_eq_true, if_false, htr, if_true, Option.getD_some, hfilter,
    hrm, Bool.not_false, Bool.true_and, run_removals_eq_map]

/-- C7 witness: three filtered episodes, the DELETE for "idB" failing with
403: all three calls are attempted, with 2 successes and 1 failure logged. -/
theorem C7_witness :
    remove_episodes_based_on_filter (some "token") sampleDeletePages sampleDeleteStatus false
        .dateAddedToLibrary (some "2023-01-01") losAngeles ["PubA"]
      = .completed [("idA", true), ("idB", false), ("idC", true)] ∧
    ([("idA", true), ("idB", false), ("idC", true)].filter (fun r => r.2)).length = 2 ∧
    ([("idA", true), ("idB", false), ("idC", true)].filter (fun r => !r.2)).length = 1 := by
  refine ⟨?_, by decide, by decide⟩
  exact (C7_deletions_attempted_in_order "token" sampleDeletePages sampleDeleteStatus
    .dateAddedToLibrary "2023-01-01" losAngeles ["PubA"]
    [sampleDel1, sampleDel2, sampleDel3] rfl (by decide) (by decide)).trans rfl

/-- C9: `get_unique_authors` returns the publishers occurring in the input
as a lexicographically sorted sequence with no duplicates; being a pure
function of the list, it has no side effects on its input. -/
theorem C9_unique_authors_sorted_nodup (episodes : List SavedEpisode) :
    List.Sorted (· ≤ ·) (get_unique_authors episodes) ∧
    (get_unique_authors episodes).Nodup ∧
    ∀ a, a ∈ get_unique_authors episodes ↔
      ∃ ep ∈ episodes, ep.episode.«show».publisher = a := by
  refine ⟨List.sorted_insertionSort _ _, ?_, ?_⟩
  · exact ((List.perm_insertionSort _ _).nodup_iff).mpr (List.nodup_dedup _)
  · intro a
    rw [get_unique_authors, (List.perm_insertionSort _ _).mem_iff, List.mem_dedup,
      List.mem_map]

/-- C10: with test_mode false, a successful token exchange, at least one
fetched episode and a falsy cutoff (None or the empty string), the
orchestrator raises `UnboundLocalError` (line 113 never assigned
`episodes_to_remove`, which line 116 then evaluates); the same call with
test_mode true returns normally, filtering and deleting nothing. -/
theorem C10_falsy_cutoff_unbound_local (token : String) (pages : List Page)
    (delete_status : String → Nat) (date_type : DateType) (before_date : Option String)
    (local_tz : Timezone) (selected_authors : List String)
    (hbd : before_date = none ∨ before_date = some "")
    (heps : get_saved_episodes pages ≠ []) :
    remove_episodes_based_on_filter (some token) pages delete_status false date_type
        before_date local_tz selected_authors = .raisedUnboundLocalError ∧
    remove_episodes_based_on_filter (some token) pages delete_status true date_type
        before_date local_tz selected_authors = .completed [] := by
  have hemp : (get_saved_episodes pages).isEmpty = false := by
    cases h : get_saved_episodes pages with
    | nil => exact absurd h heps
    | cons a l => rfl
  rcases hbd with h | h <;> subst h <;>
    constructor <;>
    · rw [remove_episodes_based_on_filter]
      simp [hemp, pyTruthy]

/-- C10 witness: cutoff None with one fetched page: live mode raises
UnboundLocalError, test mode completes with no deletions. -/
theorem C10_witness :
    remove_episodes_based_on_filter (some "token") sampleDeletePages sampleDeleteStatus false
        .dateAddedToLibrary none losAngeles ["PubA"] = .raisedUnboundLocalError ∧
    remove_episodes_based_on_filter (some "token") sampleDeletePages sampleDeleteStatus true
        .dateAddedToLibrary none losAngeles ["PubA"] = .completed [] :=
  C10_falsy_cutoff_unbound_local "token" sampleDeletePages sampleDeleteStatus
    .dateAddedToLibrary none losAngeles ["PubA"] (Or.inl rfl) (by decide)
